import Mathlib

/-!
Shallow embedding of `Scripts/examples/example_agent.py` from the
`openwispher` repository, together with theorems checking the
natural-language specification of the repository against it.

The Python source (after its import of the subprocess module) is:

```
def speak(text: str) -> None:
    subprocess.run(["openwhisper-speak", text], check=True)

if __name__ == "__main__":
    speak("Hello from Python AI agent")
```

The execution environment is modelled as a `Launcher`: a function from an
argument vector to the outcome of launching that argument vector as a child
process (either "executable not found" or termination with an exit code).
Each modelled operation returns, besides its Python result, the list of
argument vectors it handed to the launcher, so that claims about how often
and with which arguments the external program is invoked can be stated.
-/

/-- Outcome of asking the operating system to launch an argument vector as a
child process: either the named executable cannot be located or launched, or
the process runs and terminates with an exit code. -/
inductive LaunchOutcome where
  | notFound : LaunchOutcome
  | exited (code : Nat) : LaunchOutcome
deriving DecidableEq, Repr

/-- The execution environment: assigns to every argument vector the outcome of
launching it as a child process. -/
def Launcher : Type := List String → LaunchOutcome

/-- The single error kind of the specification, `ExternalProcessError`.  Its
two constructors correspond to the two Python exceptions that
`subprocess.run(args, check=True)` can raise: `FileNotFoundError` when the
executable cannot be located or launched, and `subprocess.CalledProcessError`
when the process terminates with a non-zero exit status. -/
inductive ExternalProcessError where
  | executableNotFound (executable : String) : ExternalProcessError
  | calledProcessError (returncode : Nat) (cmd : List String) : ExternalProcessError
deriving DecidableEq, Repr

/-- Embedding of `subprocess.run(args, check=True)`: hand the argument vector
`args` to the launcher exactly once, with no shell interpretation and no
modification of the arguments.  If the executable cannot be located the call
raises `FileNotFoundError` (modelled as `ExternalProcessError.executableNotFound`
on the first element of the vector); with `check=True` a non-zero exit status
raises `subprocess.CalledProcessError` carrying the return code and the command;
exit status `0` returns normally with no value.  The second component of the
result is the list of argument vectors handed to the launcher during the call. -/
def subprocessRun (launch : Launcher) (args : List String) :
    Except ExternalProcessError Unit × List (List String) :=
  match launch args with
  | LaunchOutcome.notFound =>
      (Except.error (ExternalProcessError.executableNotFound (args.headD "")), [args])
  | LaunchOutcome.exited 0 => (Except.ok (), [args])
  | LaunchOutcome.exited (Nat.succ c) =>
      (Except.error (ExternalProcessError.calledProcessError (Nat.succ c) args), [args])

/-- Embedding of `def speak(text: str) -> None` (example_agent.py, lines 3-4):
`subprocess.run(["openwhisper-speak", text], check=True)`.  Any exception from
`subprocess.run` propagates unchanged to the caller; on success the function
returns `None` (modelled as `Unit`).  The second component of the result is the
list of argument vectors handed to the launcher during the call. -/
def speak (launch : Launcher) (text : String) :
    Except ExternalProcessError Unit × List (List String) :=
  subprocessRun launch ["openwhisper-speak", text]

/-- Modelled from the spec: the repository's second copy of the example file,
which is not present under `src/`.  Per the spec it is identical to
`example_agent.py` except that the external command name carries a typo:
it invokes `openwispher-speak` instead of `openwhisper-speak`. -/
def speakTypo (launch : Launcher) (text : String) :
    Except ExternalProcessError Unit × List (List String) :=
  subprocessRun launch ["openwispher-speak", text]

/-- Renaming of the correctly-spelled executable name to the typo variant,
leaving every other string unchanged.  Used to relate the two copies of the
example file. -/
def renameExe (s : String) : String :=
  if s = "openwhisper-speak" then "openwispher-speak" else s

/-- Renaming of the executable-name position (the head) of an argument vector,
leaving the remaining arguments untouched. -/
def renameCmd (args : List String) : List String :=
  match args with
  | [] => []
  | exe :: rest => renameExe exe :: rest

/-- Renaming of the executable-name occurrences inside a result of `speak`:
successes are unchanged, and error payloads have the executable-name position
renamed. -/
def renameResult (r : Except ExternalProcessError Unit) :
    Except ExternalProcessError Unit :=
  match r with
  | Except.ok u => Except.ok u
  | Except.error (ExternalProcessError.executableNotFound s) =>
      Except.error (ExternalProcessError.executableNotFound (renameExe s))
  | Except.error (ExternalProcessError.calledProcessError c cmd) =>
      Except.error (ExternalProcessError.calledProcessError c (renameCmd cmd))

/-- Embedding of running the module (example_agent.py, lines 6-7): Python sets
`__name__` to `"__main__"` when the file is run directly and to the module name
when it is imported; the guarded call `speak("Hello from Python AI agent")`
executes only in the former case.  The result is the module's outcome, the list
of argument vectors handed to the launcher, and the list of arguments of the
calls made to `speak` at module level. -/
def runModule (launch : Launcher) (dunderName : String) :
    Except ExternalProcessError Unit × List (List String) × List String :=
  if dunderName = "__main__" then
    let r := speak launch "Hello from Python AI agent"
    (r.1, r.2, ["Hello from Python AI agent"])
  else
    (Except.ok (), [], [])

/-- C1: for every input string `text` (including the empty string and strings
with whitespace, punctuation or quote characters), `speak` hands the launcher
exactly the argument vector `["openwhisper-speak", text]`: the text is one
single argument, unmodified, with no shell interpretation, expansion or
truncation. -/
theorem speak_argument_fidelity (launch : Launcher) (text : String) :
    (speak launch text).2 = [["openwhisper-speak", text]] ∧
      (["openwhisper-speak", text] : List String).drop 1 = [text] := by
  refine ⟨?_, rfl⟩
  unfold speak subprocessRun
  cases h : launch ["openwhisper-speak", text] with
  | notFound => simp [h]
  | exited code => cases code <;> simp [h]

/-- C2: `speak` raises an error if and only if the external process invocation
fails: exit status `0` is success; a non-zero exit status is surfaced to the
caller as `CalledProcessError` (an `ExternalProcessError`) carrying exactly
that status, with no local handling, retry or suppression. -/
theorem speak_error_iff_process_failure (launch : Launcher) (text : String) :
    ((speak launch text).1 = Except.ok () ↔
        launch ["openwhisper-speak", text] = LaunchOutcome.exited 0) ∧
      (∀ code : Nat, code ≠ 0 →
        launch ["openwhisper-speak", text] = LaunchOutcome.exited code →
        (speak launch text).1 =
          Except.error
            (ExternalProcessError.calledProcessError code ["openwhisper-speak", text])) := by
  constructor
  · unfold speak subprocessRun
    cases h : launch ["openwhisper-speak", text] with
    | notFound => simp [h]
    | exited code => cases code <;> simp [h]
  · intro code hcode hlaunch
    unfold speak subprocessRun
    rw [hlaunch]
    cases code with
    | zero => exact absurd rfl hcode
    | succ c => rfl

/-- Witness for C2: with a stub launcher whose every invocation exits with
status 1, `speak "x"` returns exactly a `CalledProcessError` with return
code 1. -/
theorem speak_error_iff_process_failure_witness :
    (speak (fun _ => LaunchOutcome.exited 1) "x").1 =
      Except.error
        (ExternalProcessError.calledProcessError 1 ["openwhisper-speak", "x"]) :=
  (speak_error_iff_process_failure (fun _ => LaunchOutcome.exited 1) "x").2
    1 (by decide) rfl

/-- C3: there is exactly one error kind, `ExternalProcessError`: when the named
executable cannot be located or launched and when the process exits with a
non-success status, `speak` fails with a value of this one type — and whenever
`speak` does not succeed, its error is an `ExternalProcessError` value. -/
theorem speak_single_error_kind (launch : Launcher) (text : String) :
    (launch ["openwhisper-speak", text] = LaunchOutcome.notFound →
        (speak launch text).1 =
          Except.error (ExternalProcessError.executableNotFound "openwhisper-speak")) ∧
      (∀ c : Nat,
        launch ["openwhisper-speak", text] = LaunchOutcome.exited (Nat.succ c) →
        (speak launch text).1 =
          Except.error
            (ExternalProcessError.calledProcessError (Nat.succ c)
              ["openwhisper-speak", text])) ∧
      ((speak launch text).1 ≠ Except.ok () →
        ∃ e : ExternalProcessError, (speak launch text).1 = Except.error e) := by
  refine ⟨?_, ?_, ?_⟩
  · intro h
    simp [speak, subprocessRun, h]
  · intro c h
    simp [speak, subprocessRun, h]
  · intro h
    cases he : (speak launch text).1 with
    | ok u => cases u; exact absurd he h
    | error e => exact ⟨e, rfl⟩

/-- Witness for C3: with a stub launcher for which no executable can be
located, `speak "x"` fails with `ExternalProcessError.executableNotFound`. -/
theorem speak_single_error_kind_witness :
    (speak (fun _ => LaunchOutcome.notFound) "x").1 =
      Except.error (ExternalProcessError.executableNotFound "openwhisper-speak") :=
  (speak_single_error_kind (fun _ => LaunchOutcome.notFound) "x").1 rfl

/-- C4: for every input string `text`, including the empty string, when the
external process terminates with exit status `0`, `speak text` returns
normally with the unit value. -/
theorem speak_success_returns_unit (launch : Launcher) (text : String)
    (h : launch ["openwhisper-speak", text] = LaunchOutcome.exited 0) :
    (speak launch text).1 = Except.ok () := by
  unfold speak subprocessRun
  rw [h]

/-- Witness for C4: with a stub launcher that always exits 0, `speak ""`
returns normally on the empty string. -/
theorem speak_success_returns_unit_witness :
    (speak (fun _ => LaunchOutcome.exited 0) "").1 = Except.ok () :=
  speak_success_returns_unit (fun _ => LaunchOutcome.exited 0) "" rfl

/-- C5: every call to `speak` hands the launcher at most one argument vector —
exactly one whenever the executable can be launched (and in fact exactly one
attempt is made regardless of outcome): no retry, no fallback. -/
theorem speak_launches_at_most_once (launch : Launcher) (text : String) :
    (speak launch text).2.length ≤ 1 ∧
      (launch ["openwhisper-speak", text] ≠ LaunchOutcome.notFound →
        (speak launch text).2.length = 1) := by
  have hlen : (speak launch text).2.length = 1 := by
    unfold speak subprocessRun
    cases h : launch ["openwhisper-speak", text] with
    | notFound => simp [h]
    | exited code => cases code <;> simp [h]
  exact ⟨le_of_eq hlen, fun _ => hlen⟩

/-- Witness for C5: with a stub launcher that always exits 0, the call
`speak "hi"` makes exactly one launch. -/
theorem speak_launches_at_most_once_witness :
    (speak (fun _ => LaunchOutcome.exited 0) "hi").2.length = 1 :=
  (speak_launches_at_most_once (fun _ => LaunchOutcome.exited 0) "hi").2
    (by decide)

/-- C7: `speak` is stateless and writes no persisted state: on success its
result is exactly the unit value, and the only side effect of an invocation is
the single child-process launch — the recorded effect trace contains nothing
but that one launch. -/
theorem speak_stateless_unit_result (launch : Launcher) (text : String) :
    ((speak launch text).1 ≠ Except.ok () ∨ (speak launch text).1 = Except.ok ()) ∧
      (∀ u : Unit, (speak launch text).1 = Except.ok u →
        (speak launch text).1 = Except.ok ()) ∧
      (speak launch text).2 = [["openwhisper-speak", text]] := by
  refine ⟨Or.symm (em _), fun u h => by cases u; exact h, ?_⟩
  exact (speak_argument_fidelity launch text).1

/-- Witness for C7: with a stub launcher that always exits 0, `speak "hi"`
succeeds with the unit value and its effect trace is the single launch. -/
theorem speak_stateless_unit_result_witness :
    (speak (fun _ => LaunchOutcome.exited 0) "hi").1 = Except.ok () ∧
      (speak (fun _ => LaunchOutcome.exited 0) "hi").2 =
        [["openwhisper-speak", "hi"]] :=
  ⟨(speak_stateless_unit_result (fun _ => LaunchOutcome.exited 0) "hi").2.1
      () rfl,
    (speak_stateless_unit_result (fun _ => LaunchOutcome.exited 0) "hi").2.2⟩

/-- C8: the repository's two copies of the example file are behaviourally equal
up to the fixed executable-name string: against any pair of launchers that
agree across the executable-name renaming, the typo copy's result is exactly
the original's result with the executable name renamed in the error payload,
and its launch trace is the original's trace with the executable-name position
renamed — so the `text` argument itself is handed over identically. -/
theorem speak_copies_equal_up_to_name (launch launchB : Launcher) (text : String)
    (hagree : ∀ t : String,
      launchB ["openwispher-speak", t] = launch ["openwhisper-speak", t]) :
    (speakTypo launchB text).1 = renameResult (speak launch text).1 ∧
      (speakTypo launchB text).2 = (speak launch text).2.map renameCmd := by
  unfold speak speakTypo subprocessRun
  rw [hagree text]
  cases h : launch ["openwhisper-speak", text] with
  | notFound => exact ⟨rfl, rfl⟩
  | exited code => cases code <;> exact ⟨rfl, rfl⟩

/-- Witness for C8: with the stub launcher that always exits 1 on both sides,
the typo copy's result on `"hi"` is the original's with the executable name
renamed, and the traces correspond under the renaming. -/
theorem speak_copies_equal_up_to_name_witness :
    (speakTypo (fun _ => LaunchOutcome.exited 1) "hi").1 =
        renameResult (speak (fun _ => LaunchOutcome.exited 1) "hi").1 ∧
      (speakTypo (fun _ => LaunchOutcome.exited 1) "hi").2 =
        (speak (fun _ => LaunchOutcome.exited 1) "hi").2.map renameCmd :=
  speak_copies_equal_up_to_name (fun _ => LaunchOutcome.exited 1)
    (fun _ => LaunchOutcome.exited 1) "hi" (fun _ => rfl)

/-- C9: the invocation `speak` constructs is deterministic: for any two calls
with equal input strings the argument vector handed to the launcher is the
same regardless of the environment, always of length exactly 2, with first
element the fixed string "openwhisper-speak" and second element the input
text. -/
theorem speak_command_deterministic (launchA launchB : Launcher) (text : String) :
    (speak launchA text).2 = (speak launchB text).2 ∧
      (speak launchA text).2 = [["openwhisper-speak", text]] ∧
      (["openwhisper-speak", text] : List String).length = 2 := by
  have hA := (speak_argument_fidelity launchA text).1
  have hB := (speak_argument_fidelity launchB text).1
  exact ⟨hA.trans hB.symm, hA, rfl⟩

/-- C10: when the module is run directly (`__name__ == "__main__"`), `speak` is
called exactly once, with the literal argument "Hello from Python AI agent";
when the module is imported under any other name, `speak` is not called at
all. -/
theorem runModule_entry_point (launch : Launcher) (dunderName : String) :
    (runModule launch "__main__").2.2 = ["Hello from Python AI agent"] ∧
      (dunderName ≠ "__main__" → (runModule launch dunderName).2.2 = []) := by
  constructor
  · rfl
  · intro h
    unfold runModule
    rw [if_neg h]

/-- Witness for C10: imported under the module name "example_agent", the module
makes no call to `speak`. -/
theorem runModule_entry_point_witness :
    (runModule (fun _ => LaunchOutcome.exited 0) "example_agent").2.2 = [] :=
  (runModule_entry_point (fun _ => LaunchOutcome.exited 0) "example_agent").2
    (by decide)
